import Mathlib

/-!
Shallow embedding of the iceth canister (src/main.rs): authorization model,
cost model, host allowlist, provider registry, response transform and the
relay pipeline of json_rpc_request_internal.

Rust strings used as byte payloads/URLs are modelled as List Nat (byte
sequences); u128/u64 machine arithmetic is Nat with explicit reductions
mod 2^128 / 2^64 where the source performs machine arithmetic; principals
are modelled as Nat (opaque comparable identities).  External collaborators
(the url parser and the HTTP outcall transport) are parameters of the relay
function, as they are not part of this repository.
-/

namespace Iceth

/-- Two to the sixty-fourth, the u64 modulus. -/
def two64 : Nat := 2 ^ 64

/-- Two to the one-hundred-twenty-eighth, the u128 modulus. -/
def two128 : Nat := 2 ^ 128

-- Constants from src/main.rs lines 23-27.
def INGRESS_OVERHEAD_BYTES : Nat := 100
def INGRESS_MESSAGE_RECEIVED_COST : Nat := 1200000
def INGRESS_MESSAGE_BYTE_RECEIVED_COST : Nat := 2000
def HTTP_OUTCALL_REQUEST_COST : Nat := 400000000
def HTTP_OUTCALL_BYTE_RECEIEVED_COST : Nat := 100000

-- Compile-time authorization allowlists, src/main.rs lines 62-69.
def OPEN_RPC_ACCESS : Bool := true
def RPC_ALLOWLIST : List Nat := []
def REGISTER_PROVIDER_ALLOWLIST : List Nat := []
def FREE_RPC_ALLOWLIST : List Nat := []
def AUTHORIZED_ADMIN : List Nat := []

-- src/main.rs lines 32-57.
def INITIAL_SERVICE_HOSTS_ALLOWLIST : List String :=
  [ "cloudflare-eth.com"
  , "ethereum.publicnode.com"
  , "eth-mainnet.g.alchemy.com"
  , "eth-goerli.g.alchemy.com"
  , "rpc.flashbots.net"
  , "eth-mainnet.blastapi.io"
  , "ethereumnodelight.app.runonflux.io"
  , "eth.nownodes.io"
  , "rpc.ankr.com/eth_goerli"
  , "mainnet.infura.io"
  , "eth.getblock.io"
  , "rpc.kriptonio.com"
  , "api.0x.org"
  , "erigon-mainnet--rpc.datahub.figment.io"
  , "archivenode.io"
  , "eth-mainnet.nodereal.io"
  , "ethereum-mainnet.s.chainbase.online"
  , "eth.llamarpc.com"
  , "ethereum-mainnet-rpc.allthatnode.com"
  , "api.zmok.io"
  , "in-light.eth.linkpool.iono"
  , "api.mycryptoapi.com"
  , "mainnet.eth.cloud.ava.dono"
  , "eth-mainnet.gateway.pokt.network" ]

/-- Caller identity (a principal), modelled as an opaque comparable Nat. -/
abbrev Principal := Nat

/-- The Auth role enum, src/main.rs lines 93-99. -/
inductive Auth
  | Admin
  | Rpc
  | RegisterProvider
  | FreeRpc
  deriving DecidableEq, Repr

/-- The numeric discriminant of each Auth variant, exactly the Rust
`auth as u32` values: Admin = 1, Rpc = 2, RegisterProvider = 3, FreeRpc = 4. -/
def Auth.toU32 : Auth → Nat
  | .Admin => 1
  | .Rpc => 2
  | .RegisterProvider => 3
  | .FreeRpc => 4

/-- The stable AUTH map (StableBTreeMap<PrincipalStorable, u32>), modelled
as an association list from principals to u32 role words. -/
abbrev AuthMap := List (Principal × Nat)

/-- Map lookup (StableBTreeMap::get). -/
def authGet (m : AuthMap) (p : Principal) : Option Nat :=
  match m with
  | [] => none
  | (q, v) :: rest => if q = p then some v else authGet rest p

/-- Map insert-or-overwrite (StableBTreeMap::insert). -/
def authInsert (m : AuthMap) (p : Principal) (v : Nat) : AuthMap :=
  match m with
  | [] => [(p, v)]
  | (q, w) :: rest => if q = p then (p, v) :: rest else (q, w) :: authInsert rest p v

/-- `authorize`, src/main.rs lines 591-603: OR-merge the role's u32 value
into the caller's stored word, creating the entry when absent. -/
def authorize (m : AuthMap) (principal : Principal) (auth : Auth) : AuthMap :=
  match authGet m principal with
  | some v => authInsert m principal (Nat.lor v auth.toU32)
  | none => authInsert m principal auth.toU32

/-- `authorized`, src/main.rs lines 625-637: open access short-circuits the
Rpc role, otherwise test the stored word AND the role's u32 value. -/
def authorized (m : AuthMap) (caller : Principal) (auth : Auth) : Bool :=
  if auth = Auth.Rpc && OPEN_RPC_ACCESS then
    true
  else
    match authGet m caller with
    | some v => Nat.land v auth.toU32 != 0
    | none => false

/-- `json_rpc_cycles_cost`, src/main.rs lines 380-391.  Payload and URL are
byte sequences; only their lengths enter the formula.  u128 arithmetic is
reduced mod 2^128. -/
def json_rpc_cycles_cost (json_rpc_payload service_url : List Nat)
    (max_response_bytes : Nat) : Nat :=
  let ingress_bytes := json_rpc_payload.length + service_url.length + INGRESS_OVERHEAD_BYTES
  (INGRESS_MESSAGE_RECEIVED_COST
    + INGRESS_MESSAGE_BYTE_RECEIVED_COST * ingress_bytes
    + HTTP_OUTCALL_REQUEST_COST
    + HTTP_OUTCALL_BYTE_RECEIEVED_COST * (ingress_bytes + max_response_bytes)) % two128

/-- `json_rpc_provider_cycles_cost`, src/main.rs lines 393-401. -/
def json_rpc_provider_cycles_cost (json_rpc_payload : List Nat)
    (provider_cycles_per_call provider_cycles_per_message_byte : Nat) : Nat :=
  (provider_cycles_per_call + provider_cycles_per_message_byte
    + json_rpc_payload.length) % two128

/-- An HTTP header, after ic_cdk's HttpHeader. -/
structure HttpHeader where
  name : String
  value : String
  deriving DecidableEq, Repr

/-- An HTTP response, after ic_cdk's HttpResponse. -/
structure HttpResponse where
  status : Nat
  headers : List HttpHeader
  body : List Nat
  deriving DecidableEq, Repr

/-- Transform arguments, after ic_cdk's TransformArgs. -/
structure TransformArgs where
  response : HttpResponse
  context : List Nat
  deriving DecidableEq, Repr

/-- `transform`, src/main.rs lines 476-485: keep status and body, strip all
headers. -/
def transform (args : TransformArgs) : HttpResponse :=
  { status := args.response.status
  , body := args.response.body
  , headers := [] }

/-- A registered provider record, src/main.rs lines 162-172. -/
structure Provider where
  provider_id : Nat
  owner : Principal
  chain_id : Nat
  service_url : List Nat
  api_key : List Nat
  cycles_per_call : Nat
  cycles_per_message_byte : Nat
  cycles_owed : Nat
  deriving DecidableEq, Repr

/-- The argument record of register_provider, src/main.rs lines 153-160. -/
structure RegisterProvider where
  chain_id : Nat
  service_url : List Nat
  api_key : List Nat
  cycles_per_call : Nat
  cycles_per_message_byte : Nat
  deriving DecidableEq, Repr

/-- The stable PROVIDERS map (StableBTreeMap<u64, Provider>), modelled as an
association list keyed by provider id. -/
abbrev ProvidersMap := List (Nat × Provider)

/-- Map lookup (StableBTreeMap::get). -/
def providersGet (m : ProvidersMap) (id : Nat) : Option Provider :=
  match m with
  | [] => none
  | (k, p) :: rest => if k = id then some p else providersGet rest id

/-- Map insert-or-overwrite (StableBTreeMap::insert). -/
def providersInsert (m : ProvidersMap) (id : Nat) (p : Provider) : ProvidersMap :=
  match m with
  | [] => [(id, p)]
  | (k, q) :: rest =>
    if k = id then (id, p) :: rest else (k, q) :: providersInsert rest id p

/-- Map removal (StableBTreeMap::remove). -/
def providersRemove (m : ProvidersMap) (id : Nat) : ProvidersMap :=
  match m with
  | [] => []
  | (k, q) :: rest => if k = id then rest else (k, q) :: providersRemove rest id

/-- The transient Metrics record, src/main.rs lines 82-91.  The host-request
map is an association list from host to count. -/
structure Metrics where
  json_rpc_requests : Nat := 0
  json_rpc_request_cycles_charged : Nat := 0
  json_rpc_request_cycles_refunded : Nat := 0
  json_rpc_request_err_no_permission : Nat := 0
  json_rpc_request_err_service_url_host_not_allowed : Nat := 0
  json_rpc_request_err_http_request_error : Nat := 0
  json_rpc_host_requests : List (String × Nat) := []
  deriving DecidableEq, Repr

/-- inc_metric_entry! on json_rpc_host_requests: bump the entry, creating it
at 1 when absent. -/
def hostInc (m : List (String × Nat)) (h : String) : List (String × Nat) :=
  match m with
  | [] => [(h, 1)]
  | (k, v) :: rest => if k = h then (k, v + 1) :: rest else (k, v) :: hostInc rest h

/-- The error enum EthRpcError, src/main.rs lines 219-228. -/
inductive EthRpcError
  | NoPermission
  | TooFewCycles (msg : String)
  | ServiceUrlParseError
  | ServiceUrlHostMissing
  | ServiceUrlHostNotAllowed
  | ProviderNotFound
  | HttpRequestError (code : Nat) (message : String)
  deriving DecidableEq, Repr

/-- Observable steps of the relay pipeline of json_rpc_request_internal, in
the order the source reaches them: entry bookkeeping, the Rpc-role check,
URL-host validation against the allowlist, fee computation, fee acceptance,
and issuing the outbound HTTP call. -/
inductive RelayStep
  | received
  | authorizedStep
  | hostValidated
  | costed
  | charged
  | forwarded
  deriving DecidableEq, Repr

instance (ε α : Type) [DecidableEq ε] [DecidableEq α] : DecidableEq (Except ε α) :=
  fun a b =>
    match a, b with
    | .ok x, .ok y =>
      if h : x = y then .isTrue (congrArg Except.ok h)
      else .isFalse (fun hh => h (Except.ok.inj hh))
    | .error x, .error y =>
      if h : x = y then .isTrue (congrArg Except.error h)
      else .isFalse (fun hh => h (Except.error.inj hh))
    | .ok _, .error _ => .isFalse (fun hh => Except.noConfusion hh)
    | .error _, .ok _ => .isFalse (fun hh => Except.noConfusion hh)

/-- Result of one run of json_rpc_request_internal: the returned value, the
updated transient metrics, the updated provider map, the cycles accepted
from the caller (msg_cycles_accept128), and the trace of pipeline steps the
run executed, in execution order. -/
structure RelayResult where
  result : Except EthRpcError (List Nat)
  metrics : Metrics
  providers : ProvidersMap
  cyclesAccepted : Nat
  trace : List RelayStep
  deriving DecidableEq, Repr

/-- Tail of the relay pipeline, src/main.rs lines 349-377: bump the per-host
request counter, issue the POST (whose transport applies `transform` before
returning), and map the transport outcome to the returned value.  The
transport is external; its outcome is the http_outcome parameter, carrying
the raw upstream response on success. -/
def finishForward (metrics : Metrics) (providers : ProvidersMap) (accepted : Nat)
    (host : String) (http_outcome : Except (Nat × String) HttpResponse)
    (trace : List RelayStep) : RelayResult :=
  let metrics := { metrics with
    json_rpc_host_requests := hostInc metrics.json_rpc_host_requests host }
  match http_outcome with
  | .ok upstream =>
    { result := .ok (transform { response := upstream, context := [] }).body
    , metrics := metrics, providers := providers
    , cyclesAccepted := accepted, trace := trace ++ [.forwarded] }
  | .error (r, m) =>
    { result := .error (.HttpRequestError r m)
    , metrics := { metrics with
        json_rpc_request_err_http_request_error :=
          metrics.json_rpc_request_err_http_request_error + 1 }
    , providers := providers
    , cyclesAccepted := accepted, trace := trace ++ [.forwarded] }

/-- `json_rpc_request_internal`, src/main.rs lines 297-378.  The external
url crate's parse-then-host_str step is the url_host parameter: none models
a parse failure, some none a host-less URL, some (some h) host h.  The
function is written branch for branch after the source. -/
def json_rpc_request_internal
    (auth : AuthMap) (allowlist : List String)
    (metrics0 : Metrics) (providers : ProvidersMap)
    (caller : Principal) (cycles_available : Nat)
    (url_host : List Nat → Option (Option String))
    (http_outcome : Except (Nat × String) HttpResponse)
    (json_rpc_payload service_url : List Nat) (max_response_bytes : Nat)
    (provider : Option Provider) : RelayResult :=
  let metrics := { metrics0 with json_rpc_requests := metrics0.json_rpc_requests + 1 }
  if authorized auth caller Auth.Rpc = false then
    { result := .error .NoPermission
    , metrics := { metrics with
        json_rpc_request_err_no_permission := metrics.json_rpc_request_err_no_permission + 1 }
    , providers := providers, cyclesAccepted := 0
    , trace := [.received] }
  else
    match url_host service_url with
    | none =>
      { result := .error .ServiceUrlParseError, metrics := metrics
      , providers := providers, cyclesAccepted := 0
      , trace := [.received, .authorizedStep] }
    | some none =>
      { result := .error .ServiceUrlHostMissing, metrics := metrics
      , providers := providers, cyclesAccepted := 0
      , trace := [.received, .authorizedStep] }
    | some (some host) =>
      if allowlist.contains host = false then
        { result := .error .ServiceUrlHostNotAllowed
        , metrics := { metrics with
            json_rpc_request_err_service_url_host_not_allowed :=
              metrics.json_rpc_request_err_service_url_host_not_allowed + 1 }
        , providers := providers, cyclesAccepted := 0
        , trace := [.received, .authorizedStep] }
      else
        if authorized auth caller Auth.FreeRpc = false then
          let provider_cost :=
            match provider with
            | none => 0
            | some p =>
              json_rpc_provider_cycles_cost json_rpc_payload
                p.cycles_per_call p.cycles_per_message_byte
          let cost :=
            (json_rpc_cycles_cost json_rpc_payload service_url max_response_bytes
              + provider_cost) % two128
          if cycles_available < cost then
            { result := .error (.TooFewCycles
                ("requires " ++ toString cost ++ " cycles, got "
                  ++ toString cycles_available ++ " cycles"))
            , metrics := metrics, providers := providers, cyclesAccepted := 0
            , trace := [.received, .authorizedStep, .hostValidated, .costed] }
          else
            let providers2 :=
              match provider with
              | none => providers
              | some p =>
                providersInsert providers p.provider_id
                  { p with cycles_owed := (p.cycles_owed + provider_cost) % two128 }
            let metrics2 := { metrics with
                json_rpc_request_cycles_charged :=
                  metrics.json_rpc_request_cycles_charged + cost
              , json_rpc_request_cycles_refunded :=
                  metrics.json_rpc_request_cycles_refunded + (cycles_available - cost) }
            finishForward metrics2 providers2 cost host http_outcome
              [.received, .authorizedStep, .hostValidated, .costed, .charged]
        else
          finishForward metrics providers 0 host http_outcome
            [.received, .authorizedStep, .hostValidated]

/-- The canister's mutable state: the stable AUTH map, the transient
AUTH_STABLE set, the transient host allowlist, the stable Metadata
next_provider_id counter (a u64, kept below 2^64 by the register step), the
stable PROVIDERS map, and the transient metrics. -/
structure CanisterState where
  auth : AuthMap
  auth_stable : List Principal
  service_hosts_allowlist : List String
  metadata : Nat
  providers : ProvidersMap
  metrics : Metrics
  deriving DecidableEq, Repr

/-- State of a canister whose memory has never been written. -/
def freshState : CanisterState :=
  { auth := [], auth_stable := [], service_hosts_allowlist := []
  , metadata := 0, providers := [], metrics := {} }

/-- Guard `is_authorized`, src/main.rs lines 605-613. -/
def is_authorized (auth : AuthMap) (caller : Principal) : Except String Unit :=
  if authorized auth caller Auth.Admin then .ok () else .error "You are not authorized"

/-- Guard `is_authorized_register_provider`, src/main.rs lines 615-623. -/
def is_authorized_register_provider (auth : AuthMap) (caller : Principal) :
    Except String Unit :=
  if authorized auth caller Auth.RegisterProvider then .ok ()
  else .error "You are not authorized"

/-- Guard `is_stable_authorized`, src/main.rs lines 549-559: membership in
the transient AUTH_STABLE set (the is_controller escape hatch in the source
is commented out). -/
def is_stable_authorized (auth_stable : List Principal) (caller : Principal) :
    Except String Unit :=
  if auth_stable.contains caller then .ok ()
  else .error "You are not stable authorized"

/-- Body of `stable_authorize`, src/main.rs lines 561-564 (HashSet::insert). -/
def stable_authorize (auth_stable : List Principal) (principal : Principal) :
    List Principal :=
  if auth_stable.contains principal then auth_stable else auth_stable ++ [principal]

/-- Body of `register_provider`, src/main.rs lines 421-445: increment the
Metadata counter (u64, wrapping), store it, and in the same operation insert
a fresh Provider record, owned by the caller and with zero cycles_owed,
under the wrapping-decremented counter value, which is returned. -/
def register_provider (s : CanisterState) (caller : Principal)
    (provider : RegisterProvider) : CanisterState × Nat :=
  let stored := (s.metadata + 1) % two64
  let provider_id := (stored + (two64 - 1)) % two64
  let record : Provider :=
    { provider_id := provider_id
    , owner := caller
    , chain_id := provider.chain_id
    , service_url := provider.service_url
    , api_key := provider.api_key
    , cycles_per_call := provider.cycles_per_call
    , cycles_per_message_byte := provider.cycles_per_message_byte
    , cycles_owed := 0 }
  ({ s with metadata := stored
          , providers := providersInsert s.providers provider_id record }
  , provider_id)

/-- Observable outcome of one unregister_provider call: silently absent,
removed, or aborted by ic_cdk::trap (which rolls the message back). -/
inductive UnregisterOutcome
  | noop
  | removed
  | trapped
  deriving DecidableEq, Repr

/-- Body of `unregister_provider`, src/main.rs lines 447-459. -/
def unregister_provider (s : CanisterState) (caller : Principal)
    (provider_id : Nat) : CanisterState × UnregisterOutcome :=
  match providersGet s.providers provider_id with
  | none => (s, .noop)
  | some provider =>
    if provider.owner = caller || authorized s.auth caller Auth.Admin then
      ({ s with providers := providersRemove s.providers provider_id }, .removed)
    else
      (s, .trapped)

/-- `initialize`, src/main.rs lines 503-519: install the host allowlist and
grant the compile-time allowlisted principals their roles.  The `init`
entry point runs exactly this. -/
def initializeCanister (s : CanisterState) : CanisterState :=
  let s := { s with service_hosts_allowlist := INITIAL_SERVICE_HOSTS_ALLOWLIST }
  let s := RPC_ALLOWLIST.foldl
    (fun t p => { t with auth := authorize t.auth p Auth.Rpc }) s
  let s := REGISTER_PROVIDER_ALLOWLIST.foldl
    (fun t p => { t with auth := authorize t.auth p Auth.RegisterProvider }) s
  let s := FREE_RPC_ALLOWLIST.foldl
    (fun t p => { t with auth := authorize t.auth p Auth.FreeRpc }) s
  AUTHORIZED_ADMIN.foldl
    (fun t p => { t with auth := authorize t.auth p Auth.Admin }) s

/-- `post_upgrade`, src/main.rs lines 492-501: re-initialize, then grant the
upgrading caller all four roles and stable authorization, bypassing the
guards (direct function calls in the source). -/
def post_upgrade (s : CanisterState) (caller : Principal) : CanisterState :=
  let s := initializeCanister s
  let s := { s with auth := authorize s.auth caller Auth.Admin }
  let s := { s with auth := authorize s.auth caller Auth.RegisterProvider }
  let s := { s with auth := authorize s.auth caller Auth.Rpc }
  let s := { s with auth := authorize s.auth caller Auth.FreeRpc }
  { s with auth_stable := stable_authorize s.auth_stable caller }

/-- Fold a relay run's transient/stable effects back into the state. -/
def applyRelay (s : CanisterState) (r : RelayResult) : CanisterState :=
  { s with metrics := r.metrics, providers := r.providers }

/-- `json_rpc_provider_request`, src/main.rs lines 274-295: resolve the
provider (returning ProviderNotFound before any state change when absent),
append the api key to the service url, and run the internal pipeline. -/
def json_rpc_provider_request (s : CanisterState) (caller : Principal)
    (cycles_available : Nat) (url_host : List Nat → Option (Option String))
    (http_outcome : Except (Nat × String) HttpResponse)
    (json_rpc_payload : List Nat) (provider_id : Nat)
    (max_response_bytes : Nat) : CanisterState :=
  match providersGet s.providers provider_id with
  | none => s
  | some provider =>
    applyRelay s (json_rpc_request_internal s.auth s.service_hosts_allowlist
      s.metrics s.providers caller cycles_available url_host http_outcome
      json_rpc_payload (provider.service_url ++ provider.api_key)
      max_response_bytes (some provider))

/-- One externally callable state-mutating operation, with the data the
environment supplies (caller, attached cycles, external parser/transport
behavior).  stableWriteOp's effect on the raw stable memory is an arbitrary
state transformer, since stable_write can overwrite any stable structure. -/
inductive PublicOp
  | jsonRpcRequest (caller : Principal) (cycles_available : Nat)
      (url_host : List Nat → Option (Option String))
      (http_outcome : Except (Nat × String) HttpResponse)
      (json_rpc_payload service_url : List Nat) (max_response_bytes : Nat)
  | jsonRpcProviderRequest (caller : Principal) (cycles_available : Nat)
      (url_host : List Nat → Option (Option String))
      (http_outcome : Except (Nat × String) HttpResponse)
      (json_rpc_payload : List Nat) (provider_id : Nat) (max_response_bytes : Nat)
  | registerProviderOp (caller : Principal) (args : RegisterProvider)
  | unregisterProviderOp (caller : Principal) (provider_id : Nat)
  | withdrawOwnedCyclesOp (caller : Principal)
  | authorizeOp (caller target : Principal) (auth : Auth)
  | stableAuthorizeOp (caller target : Principal)
  | stableWriteOp (caller : Principal) (effect : CanisterState → CanisterState)

/-- One step of the public interface: run the endpoint's guard; when it
fails the body never runs (the boundary rejects the message); otherwise run
the endpoint body from src/main.rs. -/
def stepOp (s : CanisterState) : PublicOp → CanisterState
  | .jsonRpcRequest caller cycles uh oc payload url bound =>
    applyRelay s (json_rpc_request_internal s.auth s.service_hosts_allowlist
      s.metrics s.providers caller cycles uh oc payload url bound none)
  | .jsonRpcProviderRequest caller cycles uh oc payload pid bound =>
    json_rpc_provider_request s caller cycles uh oc payload pid bound
  | .registerProviderOp caller args =>
    match is_authorized_register_provider s.auth caller with
    | .ok _ => (register_provider s caller args).1
    | .error _ => s
  | .unregisterProviderOp caller pid =>
    match is_authorized_register_provider s.auth caller with
    | .ok _ => (unregister_provider s caller pid).1
    | .error _ => s
  | .withdrawOwnedCyclesOp caller =>
    match is_authorized_register_provider s.auth caller with
    | .ok _ => s
    | .error _ => s
  | .authorizeOp caller target a =>
    match is_authorized s.auth caller with
    | .ok _ => { s with auth := authorize s.auth target a }
    | .error _ => s
  | .stableAuthorizeOp caller target =>
    match is_stable_authorized s.auth_stable caller with
    | .ok _ => { s with auth_stable := stable_authorize s.auth_stable target }
    | .error _ => s
  | .stableWriteOp caller f =>
    match is_stable_authorized s.auth_stable caller with
    | .ok _ => f s
    | .error _ => s

/-- Run a sequence of public operations. -/
def runPublicOps (s : CanisterState) : List PublicOp → CanisterState
  | [] => s
  | op :: rest => runPublicOps (stepOp s op) rest

/-- An interleaved registry operation: a register_provider call or an
unregister_provider call whose endpoint guard passed. -/
inductive RegOp
  | reg (caller : Principal) (args : RegisterProvider)
  | unreg (caller : Principal) (provider_id : Nat)

/-- Run a sequence of registry operations, collecting the provider ids the
register calls return, in call order. -/
def runRegOps (s : CanisterState) : List RegOp → CanisterState × List Nat
  | [] => (s, [])
  | .reg caller args :: rest =>
    let step := register_provider s caller args
    let tail := runRegOps step.1 rest
    (tail.1, step.2 :: tail.2)
  | .unreg caller pid :: rest =>
    runRegOps (unregister_provider s caller pid).1 rest

/-- Number of register operations in a registry trace. -/
def countReg : List RegOp → Nat
  | [] => 0
  | .reg _ _ :: rest => countReg rest + 1
  | .unreg _ _ :: rest => countReg rest

/-! ## Helper lemmas -/

/-- With OPEN_RPC_ACCESS compiled to true, the Rpc role check passes for
every caller and every auth map. -/
theorem authorized_rpc_open (m : AuthMap) (c : Principal) :
    authorized m c Auth.Rpc = true := rfl

theorem authorized_nil_admin (c : Principal) :
    authorized [] c Auth.Admin = false := rfl

theorem authorized_nil_register (c : Principal) :
    authorized [] c Auth.RegisterProvider = false := rfl

theorem is_authorized_nil (c : Principal) :
    is_authorized [] c = .error "You are not authorized" := rfl

theorem is_authorized_register_provider_nil (c : Principal) :
    is_authorized_register_provider [] c = .error "You are not authorized" := rfl

theorem is_stable_authorized_nil (c : Principal) :
    is_stable_authorized [] c = .error "You are not stable authorized" := rfl

/-! ## C1 -/

/-- C1: refuted on the code.  The Auth discriminants 1, 2, 3, 4 are used as
AND/OR bit masks, but RegisterProvider = 3 overlaps Admin = 1 and Rpc = 2:
granting a principal only RegisterProvider makes the Admin check pass, and
granting only Rpc makes the RegisterProvider check pass, so a lower tier
does self-elevate beyond the documented open-access override. -/
theorem auth_role_grant_leaks_other_roles :
    authorized (authorize [] 0 Auth.RegisterProvider) 0 Auth.Admin = true ∧
    authorized (authorize [] 0 Auth.Rpc) 0 Auth.RegisterProvider = true ∧
    authorized (authorize [] 0 Auth.Admin) 0 Auth.RegisterProvider = true := by
  decide

/-- For inputs within the machine ranges the source can receive, the u128
cost arithmetic cannot wrap, so the mod 2^128 reduction is the identity. -/
theorem json_rpc_cycles_cost_eq (p u : List Nat) (b : Nat)
    (hp : p.length < two64 + 16) (hu : u.length < two64) (hb : b < two64) :
    json_rpc_cycles_cost p u b
      = INGRESS_MESSAGE_RECEIVED_COST
        + INGRESS_MESSAGE_BYTE_RECEIVED_COST
            * (p.length + u.length + INGRESS_OVERHEAD_BYTES)
        + HTTP_OUTCALL_REQUEST_COST
        + HTTP_OUTCALL_BYTE_RECEIEVED_COST
            * (p.length + u.length + INGRESS_OVERHEAD_BYTES + b) := by
  simp only [json_rpc_cycles_cost]
  apply Nat.mod_eq_of_lt
  simp only [two64] at hp hu hb
  simp only [two128, INGRESS_OVERHEAD_BYTES, INGRESS_MESSAGE_RECEIVED_COST,
    INGRESS_MESSAGE_BYTE_RECEIVED_COST, HTTP_OUTCALL_REQUEST_COST,
    HTTP_OUTCALL_BYTE_RECEIEVED_COST]
  omega

/-! ## C5 -/

/-- C5: json_rpc_cycles_cost depends only on the payload/url lengths
(pure and deterministic), is strictly increasing in payload length and in
max_response_bytes, and appending 10 bytes to the payload adds exactly
10 * (INGRESS_MESSAGE_BYTE_RECEIVED_COST + HTTP_OUTCALL_BYTE_RECEIEVED_COST),
for all inputs within the u64/usize ranges the source can receive. -/
theorem cost_monotone_delta (p q u extra : List Nat) (b b2 : Nat)
    (hp : p.length < two64) (hq : q.length < two64) (hu : u.length < two64)
    (hb : b < two64) (hb2 : b2 < two64) (hex : extra.length = 10) :
    (p.length = q.length → json_rpc_cycles_cost p u b = json_rpc_cycles_cost q u b) ∧
    (p.length < q.length → json_rpc_cycles_cost p u b < json_rpc_cycles_cost q u b) ∧
    (b < b2 → json_rpc_cycles_cost p u b < json_rpc_cycles_cost p u b2) ∧
    json_rpc_cycles_cost (p ++ extra) u b
      = json_rpc_cycles_cost p u b
        + 10 * (INGRESS_MESSAGE_BYTE_RECEIVED_COST + HTTP_OUTCALL_BYTE_RECEIEVED_COST) := by
  have hpe : (p ++ extra).length < two64 + 16 := by
    simp only [List.length_append, hex]; omega
  rw [json_rpc_cycles_cost_eq p u b (by omega) hu hb,
    json_rpc_cycles_cost_eq q u b (by omega) hu hb,
    json_rpc_cycles_cost_eq p u b2 (by omega) hu hb2,
    json_rpc_cycles_cost_eq (p ++ extra) u b hpe hu hb]
  simp only [List.length_append, hex, INGRESS_OVERHEAD_BYTES,
    INGRESS_MESSAGE_RECEIVED_COST, INGRESS_MESSAGE_BYTE_RECEIVED_COST,
    HTTP_OUTCALL_REQUEST_COST, HTTP_OUTCALL_BYTE_RECEIEVED_COST]
  refine ⟨?_, ?_, ?_, ?_⟩ <;> omega

/-- Witness for C5 at concrete inputs. -/
theorem cost_monotone_delta_witness :
    json_rpc_cycles_cost [1, 2, 3] [104] 1000
      < json_rpc_cycles_cost [1, 2, 3, 4] [104] 1000 ∧
    json_rpc_cycles_cost [1, 2, 3] [104] 1000
      < json_rpc_cycles_cost [1, 2, 3] [104] 1001 ∧
    json_rpc_cycles_cost ([1, 2, 3] ++ [0, 1, 2, 3, 4, 5, 6, 7, 8, 9]) [104] 1000
      = json_rpc_cycles_cost [1, 2, 3] [104] 1000
        + 10 * (INGRESS_MESSAGE_BYTE_RECEIVED_COST + HTTP_OUTCALL_BYTE_RECEIEVED_COST) := by
  have h := cost_monotone_delta [1, 2, 3] [1, 2, 3, 4] [104]
    [0, 1, 2, 3, 4, 5, 6, 7, 8, 9] 1000 1001
    (by decide) (by decide) (by decide) (by decide) (by decide) (by decide)
  exact ⟨h.2.1 (by decide), h.2.2.1 (by decide), h.2.2.2⟩

/-! ## C2 -/

/-- C2: for every relay call whose target host is not in the allowlist, the
call returns Rejected ServiceUrlHostNotAllowed and the charge step has never
executed: no cycles are accepted from the caller, the provider map is
untouched, the charged-cycles metric is unchanged, and neither the cost nor
the charge step appears in the executed trace, so the rejection is strictly
before any charging. -/
theorem host_not_allowed_rejects_before_charge
    (auth : AuthMap) (allow : List String) (ms : Metrics) (ps : ProvidersMap)
    (c : Principal) (avail : Nat)
    (uh : List Nat → Option (Option String))
    (oc : Except (Nat × String) HttpResponse)
    (payload url : List Nat) (bound : Nat) (prov : Option Provider) (host : String)
    (hhost : uh url = some (some host))
    (hna : allow.contains host = false) :
    (json_rpc_request_internal auth allow ms ps c avail uh oc payload url bound prov).result
      = .error .ServiceUrlHostNotAllowed ∧
    (json_rpc_request_internal auth allow ms ps c avail uh oc payload url bound prov).cyclesAccepted
      = 0 ∧
    (json_rpc_request_internal auth allow ms ps c avail uh oc payload url bound prov).providers
      = ps ∧
    (json_rpc_request_internal auth allow ms ps c avail uh oc payload url bound
        prov).metrics.json_rpc_request_cycles_charged
      = ms.json_rpc_request_cycles_charged ∧
    RelayStep.costed ∉
      (json_rpc_request_internal auth allow ms ps c avail uh oc payload url bound prov).trace ∧
    RelayStep.charged ∉
      (json_rpc_request_internal auth allow ms ps c avail uh oc payload url bound prov).trace := by
  simp only [json_rpc_request_internal, authorized_rpc_open, hhost, hna]
  simp only [Bool.true_eq_false, if_false, reduceCtorEq, if_true]
  decide

/-- Witness for C2: a concrete call to a host outside the allowlist. -/
theorem host_not_allowed_rejects_before_charge_witness :
    ((fun _ : List Nat => some (some "evil.example.com")) [104]
        = some (some "evil.example.com")) ∧
    INITIAL_SERVICE_HOSTS_ALLOWLIST.contains "evil.example.com" = false ∧
    (json_rpc_request_internal [] INITIAL_SERVICE_HOSTS_ALLOWLIST {} [] 0 1000000000000
      (fun _ => some (some "evil.example.com"))
      (.ok { status := 200, headers := [], body := [1] })
      [1, 2, 3] [104] 1000 none).result = .error .ServiceUrlHostNotAllowed :=
  ⟨rfl, by decide,
    (host_not_allowed_rejects_before_charge [] INITIAL_SERVICE_HOSTS_ALLOWLIST {} [] 0
      1000000000000 (fun _ => some (some "evil.example.com"))
      (.ok { status := 200, headers := [], body := [1] })
      [1, 2, 3] [104] 1000 none "evil.example.com" rfl (by decide)).1⟩

/-! ## C3 -/

/-- C3 as stated is refuted on the code: this concrete relay call to a
non-allowlisted host is rejected with ServiceUrlHostNotAllowed while zero
cycles were accepted and the charge step never ran, so charging does not
precede host validation. -/
theorem charge_before_host_validation_refuted :
    (json_rpc_request_internal [] INITIAL_SERVICE_HOSTS_ALLOWLIST {} [] 0 1000000000000
      (fun _ => some (some "not-allowlisted.example"))
      (.ok { status := 200, headers := [], body := [1] })
      [1, 2, 3] [104] 1000 none).result = .error .ServiceUrlHostNotAllowed ∧
    (json_rpc_request_internal [] INITIAL_SERVICE_HOSTS_ALLOWLIST {} [] 0 1000000000000
      (fun _ => some (some "not-allowlisted.example"))
      (.ok { status := 200, headers := [], body := [1] })
      [1, 2, 3] [104] 1000 none).cyclesAccepted = 0 ∧
    RelayStep.charged ∉
      (json_rpc_request_internal [] INITIAL_SERVICE_HOSTS_ALLOWLIST {} [] 0 1000000000000
        (fun _ => some (some "not-allowlisted.example"))
        (.ok { status := 200, headers := [], body := [1] })
        [1, 2, 3] [104] 1000 none).trace := by
  decide

/-- C3 amended: the pipeline order in the code is Received, Authorized,
HostValidated, Costed, Charged, Forwarded — every executed trace is a
subsequence of that order, and a call rejected at host validation has NOT
been charged (no charge step ran and zero cycles were accepted). -/
theorem relay_trace_order
    (auth : AuthMap) (allow : List String) (ms : Metrics) (ps : ProvidersMap)
    (c : Principal) (avail : Nat)
    (uh : List Nat → Option (Option String))
    (oc : Except (Nat × String) HttpResponse)
    (payload url : List Nat) (bound : Nat) (prov : Option Provider) :
    List.Sublist
      (json_rpc_request_internal auth allow ms ps c avail uh oc payload url bound prov).trace
      [RelayStep.received, RelayStep.authorizedStep, RelayStep.hostValidated,
        RelayStep.costed, RelayStep.charged, RelayStep.forwarded] ∧
    ((json_rpc_request_internal auth allow ms ps c avail uh oc payload url bound prov).result
        = .error .ServiceUrlHostNotAllowed →
      RelayStep.charged ∉
        (json_rpc_request_internal auth allow ms ps c avail uh oc payload url bound prov).trace ∧
      (json_rpc_request_internal auth allow ms ps c avail uh oc payload url bound
          prov).cyclesAccepted = 0) := by
  simp only [json_rpc_request_internal, finishForward]
  repeat' split
  all_goals simp_all

/-- Witness for C3's amended theorem at a concrete rejected call. -/
theorem relay_trace_order_witness :
    RelayStep.charged ∉
      (json_rpc_request_internal [] INITIAL_SERVICE_HOSTS_ALLOWLIST {} [] 3 77
        (fun _ => some (some "nowhere.example"))
        (.ok { status := 200, headers := [], body := [] })
        [9] [104] 64 none).trace :=
  ((relay_trace_order [] INITIAL_SERVICE_HOSTS_ALLOWLIST {} [] 3 77
    (fun _ => some (some "nowhere.example"))
    (.ok { status := 200, headers := [], body := [] })
    [9] [104] 64 none).2 (by decide)).1

/-! ## C4 -/

/-- C4 as stated is refuted on the code: for this concrete call by a caller
holding only FreeRpc (stored word 4) to an allowlisted host, charging is
indeed skipped, but no cost step ever ran and the charged-cycles metric
stays 0 even though the theoretical cost of the call is positive — the
bypass is evaluated before cost computation, not after. -/
theorem free_rpc_theoretical_cost_metrics_refuted :
    (json_rpc_request_internal [(0, 4)] INITIAL_SERVICE_HOSTS_ALLOWLIST {} [] 0 0
      (fun _ => some (some "cloudflare-eth.com"))
      (.ok { status := 200, headers := [], body := [1] })
      [1, 2, 3] [104] 1000 none).cyclesAccepted = 0 ∧
    RelayStep.costed ∉
      (json_rpc_request_internal [(0, 4)] INITIAL_SERVICE_HOSTS_ALLOWLIST {} [] 0 0
        (fun _ => some (some "cloudflare-eth.com"))
        (.ok { status := 200, headers := [], body := [1] })
        [1, 2, 3] [104] 1000 none).trace ∧
    (json_rpc_request_internal [(0, 4)] INITIAL_SERVICE_HOSTS_ALLOWLIST {} [] 0 0
      (fun _ => some (some "cloudflare-eth.com"))
      (.ok { status := 200, headers := [], body := [1] })
      [1, 2, 3] [104] 1000 none).metrics.json_rpc_request_cycles_charged = 0 ∧
    0 < json_rpc_cycles_cost [1, 2, 3] [104] 1000 := by
  decide

/-- C4 amended: for every relay call by a caller holding the FreeRpc role
whose host passes validation, charging is skipped, but the bypass is
evaluated BEFORE cost computation, so no fee is computed (no cost and no
charge step run, zero cycles are accepted, the charged-cycles metric is
unchanged) while the request and per-host metrics are still recorded. -/
theorem free_rpc_skips_cost_and_charge
    (auth : AuthMap) (allow : List String) (ms : Metrics) (ps : ProvidersMap)
    (c : Principal) (avail : Nat)
    (uh : List Nat → Option (Option String))
    (oc : Except (Nat × String) HttpResponse)
    (payload url : List Nat) (bound : Nat) (prov : Option Provider) (host : String)
    (hfree : authorized auth c Auth.FreeRpc = true)
    (hhost : uh url = some (some host))
    (hallow : allow.contains host = true) :
    (json_rpc_request_internal auth allow ms ps c avail uh oc payload url bound
        prov).cyclesAccepted = 0 ∧
    RelayStep.costed ∉
      (json_rpc_request_internal auth allow ms ps c avail uh oc payload url bound prov).trace ∧
    RelayStep.charged ∉
      (json_rpc_request_internal auth allow ms ps c avail uh oc payload url bound prov).trace ∧
    (json_rpc_request_internal auth allow ms ps c avail uh oc payload url bound
        prov).metrics.json_rpc_request_cycles_charged
      = ms.json_rpc_request_cycles_charged ∧
    (json_rpc_request_internal auth allow ms ps c avail uh oc payload url bound
        prov).providers = ps ∧
    (json_rpc_request_internal auth allow ms ps c avail uh oc payload url bound
        prov).metrics.json_rpc_requests = ms.json_rpc_requests + 1 ∧
    (json_rpc_request_internal auth allow ms ps c avail uh oc payload url bound
        prov).metrics.json_rpc_host_requests
      = hostInc ms.json_rpc_host_requests host := by
  simp only [json_rpc_request_internal, finishForward, authorized_rpc_open, hhost, hfree, hallow]
  simp only [Bool.true_eq_false, if_false, reduceCtorEq]
  cases oc with
  | ok r => simp
  | error e =>
    obtain ⟨code, msg⟩ := e
    simp

/-- Witness for C4's amended theorem at a concrete FreeRpc call. -/
theorem free_rpc_skips_cost_and_charge_witness :
    authorized [(0, 4)] 0 Auth.FreeRpc = true ∧
    INITIAL_SERVICE_HOSTS_ALLOWLIST.contains "cloudflare-eth.com" = true ∧
    (json_rpc_request_internal [(0, 4)] INITIAL_SERVICE_HOSTS_ALLOWLIST {} [] 0 0
      (fun _ => some (some "cloudflare-eth.com"))
      (.error (2, "SysTransient")) [5, 6] [104] 500 none).cyclesAccepted = 0 :=
  ⟨by decide, by decide,
    (free_rpc_skips_cost_and_charge [(0, 4)] INITIAL_SERVICE_HOSTS_ALLOWLIST {} [] 0 0
      (fun _ => some (some "cloudflare-eth.com"))
      (.error (2, "SysTransient")) [5, 6] [104] 500 none "cloudflare-eth.com"
      (by decide) rfl (by decide)).1⟩

/-! ## C7 -/

/-- As long as the u64 counter has not wrapped, the wrapping
increment-then-decrement of register_provider returns the old counter. -/
theorem register_id_eq (s : CanisterState) (c : Principal) (a : RegisterProvider)
    (h : s.metadata < two64) : (register_provider s c a).2 = s.metadata := by
  simp only [register_provider, two64] at *
  omega

/-- Below the wrap point, register_provider increments the counter by one. -/
theorem register_metadata_succ (s : CanisterState) (c : Principal) (a : RegisterProvider)
    (h : s.metadata + 1 < two64) :
    (register_provider s c a).1.metadata = s.metadata + 1 := by
  simp only [register_provider, two64] at *
  omega

/-- At the wrap point, the stored counter becomes zero. -/
theorem register_metadata_wrap (s : CanisterState) (c : Principal) (a : RegisterProvider)
    (h : s.metadata + 1 = two64) :
    (register_provider s c a).1.metadata = 0 := by
  simp only [register_provider, two64] at *
  omega

/-- unregister_provider never touches the Metadata counter. -/
theorem unregister_metadata_eq (s : CanisterState) (c : Principal) (pid : Nat) :
    (unregister_provider s c pid).1.metadata = s.metadata := by
  simp only [unregister_provider]
  split
  · rfl
  · split <;> rfl

/-- Lookup after insert at the same key. -/
theorem providersGet_providersInsert_self (m : ProvidersMap) (id : Nat) (p : Provider) :
    providersGet (providersInsert m id p) id = some p := by
  induction m with
  | nil => simp [providersInsert, providersGet]
  | cons kv rest ih =>
    obtain ⟨k, q⟩ := kv
    by_cases hk : k = id
    · subst hk
      simp [providersInsert, providersGet]
    · simp [providersInsert, providersGet, hk, ih]

/-- As long as the counter cannot wrap, the ids returned by the register
calls of an interleaved register/unregister trace are the consecutive
naturals starting at the initial counter. -/
theorem runRegOps_ids (ops : List RegOp) :
    ∀ s : CanisterState, s.metadata + countReg ops ≤ two64 →
      (runRegOps s ops).2 = (List.range (countReg ops)).map (fun i => s.metadata + i) := by
  induction ops with
  | nil =>
    intro s _
    simp [runRegOps, countReg]
  | cons op rest ih =>
    intro s h
    cases op with
    | unreg c pid =>
      have hm : (unregister_provider s c pid).1.metadata = s.metadata :=
        unregister_metadata_eq s c pid
      simp only [runRegOps, countReg] at h ⊢
      rw [ih _ (by rw [hm]; exact h), hm]
    | reg c a =>
      simp only [runRegOps, countReg] at h ⊢
      have hmlt : s.metadata < two64 := by omega
      have hid : (register_provider s c a).2 = s.metadata := register_id_eq s c a hmlt
      by_cases hw : s.metadata + 1 < two64
      · have hsucc : (register_provider s c a).1.metadata = s.metadata + 1 :=
          register_metadata_succ s c a hw
        rw [hid, ih _ (by rw [hsucc]; omega), hsucc, List.range_succ_eq_map]
        simp only [List.map_cons, List.map_map, Nat.add_zero, List.cons.injEq, true_and]
        apply List.map_congr_left
        intro i _
        simp only [Function.comp_apply]
        omega
      · have heq : s.metadata + 1 = two64 := by omega
        have hz : (register_provider s c a).1.metadata = 0 :=
          register_metadata_wrap s c a heq
        have h0 : countReg rest = 0 := by omega
        rw [hid, ih _ (by rw [hz, h0]; omega), hz, h0]
        simp [List.range_succ]

/-- C7: from a fresh install, across every interleaved sequence of register
and unregister operations short enough for the u64 counter not to wrap, the
provider ids returned by the register calls are strictly increasing (hence
never reused); and each single registration, below the wrap point,
increments the Metadata counter by exactly one while in the same step
inserting a record, owned by the registering caller, whose cycles_owed
balance is zero. -/
theorem register_ids_strictly_increasing (ops : List RegOp) (h : countReg ops ≤ two64) :
    List.Pairwise (· < ·) (runRegOps (initializeCanister freshState) ops).2 ∧
    (∀ (s : CanisterState) (c : Principal) (a : RegisterProvider),
      s.metadata + 1 < two64 →
        (register_provider s c a).1.metadata = s.metadata + 1 ∧
        (register_provider s c a).2 = s.metadata ∧
        providersGet (register_provider s c a).1.providers s.metadata
          = some { provider_id := s.metadata, owner := c, chain_id := a.chain_id
                 , service_url := a.service_url, api_key := a.api_key
                 , cycles_per_call := a.cycles_per_call
                 , cycles_per_message_byte := a.cycles_per_message_byte
                 , cycles_owed := 0 }) := by
  constructor
  · have h0 : (initializeCanister freshState).metadata = 0 := rfl
    rw [runRegOps_ids ops (initializeCanister freshState) (by rw [h0]; omega), h0]
    rw [List.pairwise_map]
    exact (List.pairwise_lt_range _).imp (fun hab => by omega)
  · intro s c a hlt
    refine ⟨register_metadata_succ s c a hlt, register_id_eq s c a (by omega), ?_⟩
    simp only [register_provider]
    have hkey : ((s.metadata + 1) % two64 + (two64 - 1)) % two64 = s.metadata := by
      simp only [two64] at *
      omega
    rw [hkey]
    exact providersGet_providersInsert_self _ _ _

/-- Witness for C7: a concrete interleaved trace (register, unregister,
register, register) yields the strictly increasing ids 0, 1, 2, and a
single registration on a concrete state increments the counter. -/
theorem register_ids_strictly_increasing_witness :
    countReg [RegOp.reg 5 ⟨1, [1], [2], 3, 4⟩, RegOp.unreg 5 0,
        RegOp.reg 6 ⟨1, [1], [2], 3, 4⟩, RegOp.reg 5 ⟨1, [1], [2], 3, 4⟩] ≤ two64 ∧
    List.Pairwise (· < ·)
      (runRegOps (initializeCanister freshState)
        [RegOp.reg 5 ⟨1, [1], [2], 3, 4⟩, RegOp.unreg 5 0,
          RegOp.reg 6 ⟨1, [1], [2], 3, 4⟩, RegOp.reg 5 ⟨1, [1], [2], 3, 4⟩]).2 ∧
    (register_provider freshState 9 ⟨1, [], [], 0, 0⟩).2 = 0 := by
  have h := register_ids_strictly_increasing
    [RegOp.reg 5 ⟨1, [1], [2], 3, 4⟩, RegOp.unreg 5 0,
      RegOp.reg 6 ⟨1, [1], [2], 3, 4⟩, RegOp.reg 5 ⟨1, [1], [2], 3, 4⟩] (by decide)
  exact ⟨by decide, h.1, (h.2 freshState 9 ⟨1, [], [], 0, 0⟩ (by decide)).2.1⟩

/-! ## C6 -/

/-- C6: for every upstream response with arbitrary headers, transform
preserves status and body verbatim and returns an empty header list. -/
theorem transform_preserves_status_body_strips_headers (args : TransformArgs) :
    (transform args).status = args.response.status ∧
    (transform args).body = args.response.body ∧
    (transform args).headers = [] :=
  ⟨rfl, rfl, rfl⟩

/-! ## C8 -/

theorem initialize_auth_nil : (initializeCanister freshState).auth = [] := rfl

theorem initialize_auth_stable_nil :
    (initializeCanister freshState).auth_stable = [] := rfl

/-- C8 as stated is refuted on the code: after a fresh deployment (init
path), the AUTH_STABLE set is empty, so the first caller (here principal 0)
to reach the stable-authorization gate fails the membership check, and even
calling the guarded stable_authorize endpoint grants nothing. -/
theorem stable_auth_first_caller_refuted :
    is_stable_authorized (initializeCanister freshState).auth_stable 0
      = .error "You are not stable authorized" ∧
    (stepOp (initializeCanister freshState) (.stableAuthorizeOp 0 0)).auth_stable = [] := by
  decide

/-- C8 amended: after a fresh deployment no caller passes the
stable-authorization gate and the guarded stable_authorize endpoint is a
no-op for everyone (there is no first-caller bootstrap and the
controller-exemption in the source is commented out); the only auto-grant
is on the upgrade path, where post_upgrade grants the upgrading caller
stable authorization directly. -/
theorem stable_auth_bootstrap_via_upgrade_only (c target : Principal) :
    is_stable_authorized (initializeCanister freshState).auth_stable c
      = .error "You are not stable authorized" ∧
    stepOp (initializeCanister freshState) (.stableAuthorizeOp c target)
      = initializeCanister freshState ∧
    is_stable_authorized (post_upgrade freshState c).auth_stable c = .ok () := by
  refine ⟨?_, ?_, ?_⟩
  · rw [initialize_auth_stable_nil]
    exact is_stable_authorized_nil c
  · simp [stepOp, initialize_auth_stable_nil, is_stable_authorized_nil]
  · simp [post_upgrade, stable_authorize, is_stable_authorized,
      initialize_auth_stable_nil]

/-! ## C9 -/

/-- C9: unregister_provider is a no-op (state unchanged, no trap) when no
provider with the given id exists; when the record exists it removes it
when the caller is the owner or the Admin check passes, and otherwise it
aborts with a trap (not a returned error) leaving the registry unchanged. -/
theorem unregister_semantics (s : CanisterState) (c : Principal) (pid : Nat) :
    (providersGet s.providers pid = none →
      unregister_provider s c pid = (s, UnregisterOutcome.noop)) ∧
    (∀ p : Provider, providersGet s.providers pid = some p →
      (p.owner = c ∨ authorized s.auth c Auth.Admin = true) →
      unregister_provider s c pid
        = ({ s with providers := providersRemove s.providers pid },
            UnregisterOutcome.removed)) ∧
    (∀ p : Provider, providersGet s.providers pid = some p →
      p.owner ≠ c → authorized s.auth c Auth.Admin = false →
      unregister_provider s c pid = (s, UnregisterOutcome.trapped)) := by
  refine ⟨?_, ?_, ?_⟩
  · intro hnone
    simp [unregister_provider, hnone]
  · intro p hsome hperm
    have hcond : (decide (p.owner = c) || authorized s.auth c Auth.Admin) = true := by
      rcases hperm with h | h
      · simp [h]
      · simp [h]
    simp [unregister_provider, hsome, hcond]
  · intro p hsome hown hadmin
    have hcond : (decide (p.owner = c) || authorized s.auth c Auth.Admin) = false := by
      simp [hown, hadmin]
    simp [unregister_provider, hsome, hcond]

/-- Witness for C9: the three behaviors on concrete states — absent id,
owner removal, and a non-owner non-admin caller trapping. -/
theorem unregister_semantics_witness :
    unregister_provider freshState 0 5 = (freshState, UnregisterOutcome.noop) ∧
    unregister_provider
      { auth := [], auth_stable := [], service_hosts_allowlist := []
      , metadata := 1, providers := [(5, ⟨5, 3, 1, [], [], 0, 0, 0⟩)], metrics := {} } 3 5
      = ({ auth := [], auth_stable := [], service_hosts_allowlist := []
         , metadata := 1
         , providers := providersRemove [(5, ⟨5, 3, 1, [], [], 0, 0, 0⟩)] 5
         , metrics := {} }, UnregisterOutcome.removed) ∧
    unregister_provider
      { auth := [], auth_stable := [], service_hosts_allowlist := []
      , metadata := 1, providers := [(5, ⟨5, 3, 1, [], [], 0, 0, 0⟩)], metrics := {} } 4 5
      = ({ auth := [], auth_stable := [], service_hosts_allowlist := []
         , metadata := 1, providers := [(5, ⟨5, 3, 1, [], [], 0, 0, 0⟩)], metrics := {} }
        , UnregisterOutcome.trapped) := by
  refine ⟨?_, ?_, ?_⟩
  · exact (unregister_semantics freshState 0 5).1 (by decide)
  · exact (unregister_semantics
      { auth := [], auth_stable := [], service_hosts_allowlist := []
      , metadata := 1, providers := [(5, ⟨5, 3, 1, [], [], 0, 0, 0⟩)], metrics := {} }
      3 5).2.1 ⟨5, 3, 1, [], [], 0, 0, 0⟩ (by decide) (Or.inl (by decide))
  · exact (unregister_semantics
      { auth := [], auth_stable := [], service_hosts_allowlist := []
      , metadata := 1, providers := [(5, ⟨5, 3, 1, [], [], 0, 0, 0⟩)], metrics := {} }
      4 5).2.2 ⟨5, 3, 1, [], [], 0, 0, 0⟩ (by decide) (by decide) (by decide)

/-! ## C10 -/

/-- Every public operation preserves emptiness of both authorization sets:
the relay endpoints never write them, and every guarded endpoint's guard
fails on an empty set, so its body never runs. -/
theorem stepOp_preserves_locked (s : CanisterState) (op : PublicOp)
    (h1 : s.auth = []) (h2 : s.auth_stable = []) :
    (stepOp s op).auth = [] ∧ (stepOp s op).auth_stable = [] := by
  cases op with
  | jsonRpcRequest c cy uh oc payload url bound =>
    simp [stepOp, applyRelay, h1, h2]
  | jsonRpcProviderRequest c cy uh oc payload pid bound =>
    simp only [stepOp, json_rpc_provider_request]
    split
    · exact ⟨h1, h2⟩
    · simp [applyRelay, h1, h2]
  | registerProviderOp c args =>
    simp [stepOp, h1, h2, is_authorized_register_provider_nil]
  | unregisterProviderOp c pid =>
    simp [stepOp, h1, h2, is_authorized_register_provider_nil]
  | withdrawOwnedCyclesOp c =>
    simp [stepOp, h1, h2, is_authorized_register_provider_nil]
  | authorizeOp c t a =>
    simp [stepOp, h1, h2, is_authorized_nil]
  | stableAuthorizeOp c t =>
    simp [stepOp, h1, h2, is_stable_authorized_nil]
  | stableWriteOp c f =>
    simp [stepOp, h1, h2, is_stable_authorized_nil]

/-- The emptiness invariant holds along every public-operation sequence. -/
theorem runPublicOps_locked (ops : List PublicOp) :
    ∀ s : CanisterState, s.auth = [] → s.auth_stable = [] →
      (runPublicOps s ops).auth = [] ∧ (runPublicOps s ops).auth_stable = [] := by
  induction ops with
  | nil =>
    intro s h1 h2
    exact ⟨h1, h2⟩
  | cons op rest ih =>
    intro s h1 h2
    have hstep := stepOp_preserves_locked s op h1 h2
    exact ih _ hstep.1 hstep.2

/-- C10: after a fresh installation the compile-time role allowlists are
all empty so the role table starts empty, and under every sequence of
public operations it stays empty — in particular every authorize call is
rejected by its Admin guard, and the Admin- and RegisterProvider-guarded
endpoints reject every caller (until a code upgrade runs post_upgrade,
which writes the table directly). -/
theorem fresh_install_roles_locked (ops : List PublicOp) :
    (initializeCanister freshState).auth = [] ∧
    (runPublicOps (initializeCanister freshState) ops).auth = [] ∧
    (∀ c : Principal,
      is_authorized (runPublicOps (initializeCanister freshState) ops).auth c
        = .error "You are not authorized" ∧
      is_authorized_register_provider
          (runPublicOps (initializeCanister freshState) ops).auth c
        = .error "You are not authorized") := by
  have hrun := runPublicOps_locked ops (initializeCanister freshState)
    initialize_auth_nil initialize_auth_stable_nil
  refine ⟨initialize_auth_nil, hrun.1, fun c => ?_⟩
  rw [hrun.1]
  exact ⟨is_authorized_nil c, is_authorized_register_provider_nil c⟩

end Iceth
